import Mathlib

/-!
Verification of the market-trading-dashboard signal and position-sizing engine.

The Python source (src/market_dashboard/) computes, per currency pair:
technical indicators (`yahoo_currency_wrapper.get_summary`), position
parameters (`forex_data_processor._calculate_position_parameters` and
`_calculate_dynamic_distances`), a composite opportunity score
(`dashboard._calculate_opportunity_score`), and ranked opportunity lists
(`forex_data_processor.get_top_opportunities`,
`dashboard.analyze_opportunities`).

Numbers are embedded as exact rationals.  The only irrational constant in
the source, `np.sqrt(252)`, is embedded as the exact IEEE-754 double value
the Python code computes.  Python float division by zero raises
`ZeroDivisionError`; the embedding returns `none` in exactly those cases.
-/

namespace MarketDashboard

/-- The IEEE-754 double value of `np.sqrt(252)` (exactly 8936553463969119 / 2^49),
the constant the source computes in `_calculate_position_parameters`
(`daily_range = atr * np.sqrt(252)`). -/
def sqrt252 : ℚ := 8936553463969119 / 562949953421312

/-- Per-currency stop/profit multipliers, the values of one entry of
`currency_multipliers` in `_calculate_dynamic_distances`. -/
structure CurrencyMult where
  stop : ℚ
  profit : ℚ
  deriving DecidableEq, Repr

set_option maxHeartbeats 1000000 in
/-- The `currency_multipliers` dict of `_calculate_dynamic_distances`
(forex_data_processor.py lines 97-189).
The source dict lists the key `'UGX'` twice with the same value; a Python
dict keeps a single entry for it. -/
def currencyMultipliersList : List (String × CurrencyMult) :=
  [("JPY", CurrencyMult.mk 1.4 2.2),
   ("EUR", CurrencyMult.mk 1.2 2.5),
   ("GBP", CurrencyMult.mk 1.3 2.3),
   ("USD", CurrencyMult.mk 1.2 2.4),
   ("CHF", CurrencyMult.mk 1.3 2.2),
   ("AUD", CurrencyMult.mk 1.5 2.1),
   ("NZD", CurrencyMult.mk 1.5 2.1),
   ("CAD", CurrencyMult.mk 1.4 2.2),
   ("SGD", CurrencyMult.mk 1.3 2.3),
   ("HKD", CurrencyMult.mk 1.2 2.4),
   ("NOK", CurrencyMult.mk 1.4 2.2),
   ("SEK", CurrencyMult.mk 1.3 2.3),
   ("DKK", CurrencyMult.mk 1.2 2.5),
   ("ZAR", CurrencyMult.mk 1.5 2.0),
   ("MXN", CurrencyMult.mk 1.6 1.9),
   ("TRY", CurrencyMult.mk 1.7 1.8),
   ("RUB", CurrencyMult.mk 1.8 1.7),
   ("INR", CurrencyMult.mk 1.5 2.0),
   ("BRL", CurrencyMult.mk 1.6 1.9),
   ("CNY", CurrencyMult.mk 1.4 2.2),
   ("KRW", CurrencyMult.mk 1.3 2.3),
   ("TWD", CurrencyMult.mk 1.2 2.4),
   ("MYR", CurrencyMult.mk 1.5 2.1),
   ("IDR", CurrencyMult.mk 1.6 1.9),
   ("THB", CurrencyMult.mk 1.4 2.2),
   ("PHP", CurrencyMult.mk 1.5 2.0),
   ("PLN", CurrencyMult.mk 1.3 2.3),
   ("HUF", CurrencyMult.mk 1.4 2.2),
   ("CZK", CurrencyMult.mk 1.3 2.3),
   ("ILS", CurrencyMult.mk 1.2 2.4),
   ("SAR", CurrencyMult.mk 1.5 2.1),
   ("AED", CurrencyMult.mk 1.4 2.2),
   ("QAR", CurrencyMult.mk 1.3 2.3),
   ("KWD", CurrencyMult.mk 1.2 2.4),
   ("BHD", CurrencyMult.mk 1.3 2.3),
   ("OMR", CurrencyMult.mk 1.2 2.4),
   ("JOD", CurrencyMult.mk 1.3 2.3),
   ("EGP", CurrencyMult.mk 1.5 2.0),
   ("NGN", CurrencyMult.mk 1.6 1.9),
   ("KES", CurrencyMult.mk 1.5 2.0),
   ("GHS", CurrencyMult.mk 1.6 1.9),
   ("TZS", CurrencyMult.mk 1.5 2.0),
   ("UGX", CurrencyMult.mk 1.6 1.9),
   ("ZMW", CurrencyMult.mk 1.7 1.8),
   ("MAD", CurrencyMult.mk 1.5 2.0),
   ("DZD", CurrencyMult.mk 1.6 1.9),
   ("TND", CurrencyMult.mk 1.5 2.0),
   ("LBP", CurrencyMult.mk 1.7 1.8),
   ("JMD", CurrencyMult.mk 1.6 1.9),
   ("TTD", CurrencyMult.mk 1.5 2.0),
   ("BBD", CurrencyMult.mk 1.6 1.9),
   ("BZD", CurrencyMult.mk 1.5 2.0),
   ("BMD", CurrencyMult.mk 1.4 2.2),
   ("BSD", CurrencyMult.mk 1.4 2.2),
   ("KYD", CurrencyMult.mk 1.3 2.3),
   ("XCD", CurrencyMult.mk 1.4 2.2),
   ("ANG", CurrencyMult.mk 1.3 2.3),
   ("AWG", CurrencyMult.mk 1.3 2.3),
   ("BIF", CurrencyMult.mk 1.6 1.9),
   ("CDF", CurrencyMult.mk 1.7 1.8),
   ("DJF", CurrencyMult.mk 1.5 2.0),
   ("ERN", CurrencyMult.mk 1.6 1.9),
   ("ETB", CurrencyMult.mk 1.7 1.8),
   ("GMD", CurrencyMult.mk 1.6 1.9),
   ("GNF", CurrencyMult.mk 1.7 1.8),
   ("LSL", CurrencyMult.mk 1.6 1.9),
   ("LRD", CurrencyMult.mk 1.7 1.8),
   ("MWK", CurrencyMult.mk 1.6 1.9),
   ("MRO", CurrencyMult.mk 1.7 1.8),
   ("MUR", CurrencyMult.mk 1.6 1.9),
   ("MZN", CurrencyMult.mk 1.7 1.8),
   ("NAD", CurrencyMult.mk 1.6 1.9),
   ("RWF", CurrencyMult.mk 1.7 1.8),
   ("SCR", CurrencyMult.mk 1.6 1.9),
   ("SLL", CurrencyMult.mk 1.7 1.8),
   ("SOS", CurrencyMult.mk 1.6 1.9),
   ("SSP", CurrencyMult.mk 1.7 1.8),
   ("SDG", CurrencyMult.mk 1.6 1.9),
   ("SZL", CurrencyMult.mk 1.6 1.9),
   ("TJS", CurrencyMult.mk 1.7 1.8),
   ("TMT", CurrencyMult.mk 1.6 1.9),
   ("UZS", CurrencyMult.mk 1.7 1.8),
   ("VND", CurrencyMult.mk 1.6 1.9),
   ("XAF", CurrencyMult.mk 1.6 1.9),
   ("XOF", CurrencyMult.mk 1.6 1.9),
   ("XPF", CurrencyMult.mk 1.6 1.9),
   ("YER", CurrencyMult.mk 1.7 1.8),
   ("ZWL", CurrencyMult.mk 1.7 1.8)]

/-- `currency_multipliers.get(base_currency, {'stop': 1.3, 'profit': 2.3})`
(line 189). -/
def currencyMultipliers (c : String) : CurrencyMult :=
  (currencyMultipliersList.lookup c).getD ⟨1.3, 2.3⟩

/-- One entry of `ForexDataProcessor.position_config`. -/
structure PositionConfig where
  base_lot : ℚ
  risk_factor : ℚ
  deriving DecidableEq, Repr

/-- The `position_config` table built in `ForexDataProcessor.__init__`
(forex_data_processor.py lines 31-40), including the
`.get(base_currency, {'base_lot': 100000, 'risk_factor': 1.0})` default
used in `_calculate_position_parameters` (line 291). -/
def positionConfig (c : String) : PositionConfig :=
  match c with
  | "EUR" => ⟨100000, 1.0⟩
  | "GBP" => ⟨80000, 1.2⟩
  | "USD" => ⟨100000, 1.0⟩
  | "JPY" => ⟨10000000, 0.8⟩
  | "CHF" => ⟨100000, 0.9⟩
  | "AUD" => ⟨100000, 1.3⟩
  | "NZD" => ⟨100000, 1.4⟩
  | "CAD" => ⟨100000, 1.1⟩
  | _ => ⟨100000, 1.0⟩

/-- The `currency_volatility` dict of `_calculate_position_parameters`
(lines 309-318) with its `.get(base_currency, 1.0)` default (line 320). -/
def currencyVolatility (c : String) : ℚ :=
  match c with
  | "JPY" => 1.2
  | "CHF" => 0.9
  | "EUR" => 1.0
  | "GBP" => 0.95
  | "USD" => 1.0
  | "AUD" => 0.85
  | "NZD" => 0.85
  | "CAD" => 0.9
  | _ => 1.0

/-- `_calculate_dynamic_distances(volatility, atr, daily_range, base_currency)`
(forex_data_processor.py lines 85-203): returns
`(stop_distance, profit_distance)` with `profit_distance = stop_distance *
profit_mult` and the volatility-regime branches of lines 192-202. -/
def calcDynamicDistances (volatility atr daily_range : ℚ) (base_currency : String) :
    ℚ × ℚ :=
  let mult := currencyMultipliers base_currency
  if volatility < 0.005 then
    let stop_distance := max (atr * mult.stop) (daily_range * 0.1)
    (stop_distance, stop_distance * (mult.profit * 1.1))
  else if volatility < 0.01 then
    let stop_distance := max (atr * mult.stop * 1.2) (daily_range * 0.15)
    (stop_distance, stop_distance * mult.profit)
  else
    let stop_distance := max (atr * mult.stop * 1.4) (daily_range * 0.2)
    (stop_distance, stop_distance * (mult.profit * 0.9))

/-- The dict returned by `_calculate_position_parameters`
(forex_data_processor.py lines 360-374). -/
structure PositionParams where
  position_size : ℚ
  entry_price : ℚ
  entry_scale_1 : ℚ
  entry_scale_2 : ℚ
  stop_loss : ℚ
  take_profit : ℚ
  risk_reward : ℚ
  confidence : ℚ
  expected_return : ℚ
  risk_amount : ℚ
  volatility_class : String
  position_adjustment : ℚ
  currency_adjustment : ℚ
  deriving DecidableEq, Repr

/-- The volatility-regime position-size multiplier of
`_calculate_position_parameters` (lines 300-306). -/
def volatilityAdjustment (volatility : ℚ) : ℚ :=
  if volatility > 0.015 then 0.7
  else if volatility > 0.008 then 0.85
  else if volatility < 0.004 then 1.2
  else 1.0

/-- `atr = volatility * current_price` (line 296). -/
def atrOf (current_price volatility : ℚ) : ℚ := volatility * current_price

/-- `daily_range = atr * np.sqrt(252)` (line 297). -/
def dailyRangeOf (current_price volatility : ℚ) : ℚ :=
  atrOf current_price volatility * sqrt252

/-- The `stop_distance` used by `_calculate_position_parameters` after the
call to `_calculate_dynamic_distances` (lines 336-338). -/
def stopDistanceOf (base_currency : String) (current_price volatility : ℚ) : ℚ :=
  (calcDynamicDistances volatility (atrOf current_price volatility)
    (dailyRangeOf current_price volatility) base_currency).1

/-- The `profit_distance` used by `_calculate_position_parameters` after the
call to `_calculate_dynamic_distances` (lines 336-338). -/
def profitDistanceOf (base_currency : String) (current_price volatility : ℚ) : ℚ :=
  (calcDynamicDistances volatility (atrOf current_price volatility)
    (dailyRangeOf current_price volatility) base_currency).2

/-- `_calculate_position_parameters(base_currency, current_price, volatility)`
(forex_data_processor.py lines 278-374).  The dead regime block of lines
324-332 (its results are unconditionally overwritten at line 336) and the
unused `min_pip_value` of line 335 are omitted here; see
`calcPositionParametersWithDeadBlock` for the version that keeps the dead
block.  Python raises `ZeroDivisionError` at line 348
(`profit_distance / stop_distance`) when `stop_distance == 0` and at line
354 (`1/volatility`) when `volatility == 0`; the embedding returns `none`
in exactly those cases. -/
def calcPositionParameters (base_currency : String) (current_price volatility : ℚ) :
    Option PositionParams :=
  let config := positionConfig base_currency
  let base_lot := config.base_lot
  let atr := volatility * current_price
  let daily_range := atr * sqrt252
  let volatility_adjustment := volatilityAdjustment volatility
  let currency_adj := currencyVolatility base_currency
  let adjusted_position := base_lot * volatility_adjustment * currency_adj
  let dd := calcDynamicDistances volatility atr daily_range base_currency
  let stop_distance := dd.1
  let profit_distance := dd.2
  let entry_main := current_price
  if stop_distance = 0 ∨ volatility = 0 then none
  else
    let risk_amount := stop_distance * adjusted_position
    let risk_reward_ratio := profit_distance / stop_distance
    let expected_value := (risk_reward_ratio * 0.45 - 0.55) * risk_amount
    let confidence_score :=
      min (risk_reward_ratio * 20 + 1 / volatility * 30 +
        adjusted_position / base_lot * 25 + 25) 100
    some
      { position_size := adjusted_position
        entry_price := entry_main
        entry_scale_1 := current_price * 0.9995
        entry_scale_2 := current_price * 0.9990
        stop_loss := entry_main - stop_distance
        take_profit := entry_main + profit_distance
        risk_reward := risk_reward_ratio
        confidence := confidence_score
        expected_return := expected_value
        risk_amount := risk_amount
        volatility_class :=
          if volatility < 0.005 then "Low"
          else if volatility < 0.01 then "Medium" else "High"
        position_adjustment := volatility_adjustment
        currency_adjustment := currency_adj }

/-- `_calculate_position_parameters` with the dead regime block of lines
324-332 kept: `stop_distance`/`profit_distance` are first computed from the
regime formulas and then rebound (shadowed) by the results of
`_calculate_dynamic_distances` at line 336, exactly as in the source. -/
def calcPositionParametersWithDeadBlock (base_currency : String)
    (current_price volatility : ℚ) : Option PositionParams :=
  let config := positionConfig base_currency
  let base_lot := config.base_lot
  let atr := volatility * current_price
  let daily_range := atr * sqrt252
  let volatility_adjustment := volatilityAdjustment volatility
  let currency_adj := currencyVolatility base_currency
  let adjusted_position := base_lot * volatility_adjustment * currency_adj
  let stop_distance :=
    if volatility < 0.005 then max (atr * 1.2) (daily_range * 0.1)
    else if volatility < 0.01 then max (atr * 1.5) (daily_range * 0.15)
    else max (atr * 2.0) (daily_range * 0.2)
  let profit_distance :=
    if volatility < 0.005 then stop_distance * 2.8
    else if volatility < 0.01 then stop_distance * 2.3
    else stop_distance * 1.8
  let dd := calcDynamicDistances volatility atr daily_range base_currency
  let stop_distance := dd.1
  let profit_distance := dd.2
  let entry_main := current_price
  if stop_distance = 0 ∨ volatility = 0 then none
  else
    let risk_amount := stop_distance * adjusted_position
    let risk_reward_ratio := profit_distance / stop_distance
    let expected_value := (risk_reward_ratio * 0.45 - 0.55) * risk_amount
    let confidence_score :=
      min (risk_reward_ratio * 20 + 1 / volatility * 30 +
        adjusted_position / base_lot * 25 + 25) 100
    some
      { position_size := adjusted_position
        entry_price := entry_main
        entry_scale_1 := current_price * 0.9995
        entry_scale_2 := current_price * 0.9990
        stop_loss := entry_main - stop_distance
        take_profit := entry_main + profit_distance
        risk_reward := risk_reward_ratio
        confidence := confidence_score
        expected_return := expected_value
        risk_amount := risk_amount
        volatility_class :=
          if volatility < 0.005 then "Low"
          else if volatility < 0.01 then "Medium" else "High"
        position_adjustment := volatility_adjustment
        currency_adjustment := currency_adj }

/-- The fields of a `market_data` row consumed by
`dashboard._calculate_opportunity_score` (`trend`, `rsi`, `volatility`,
`day_change`); built by `load_market_data` from `get_summary`. -/
structure SummaryRow where
  trend : String
  rsi : ℚ
  volatility : ℚ
  day_change : ℚ
  deriving DecidableEq, Repr

/-- `trading_config['rsi_oversold']` (dashboard.py line 50). -/
def rsiOversold : ℚ := 30

/-- `trading_config['rsi_overbought']` (dashboard.py line 51). -/
def rsiOverbought : ℚ := 70

/-- `trading_config['max_volatility']` (dashboard.py line 49). -/
def maxVolatility : ℚ := 0.02

/-- `MarketOpportunityDashboard._calculate_opportunity_score(row, trade_params)`
(dashboard.py lines 110-159). -/
def calcOpportunityScore (row : SummaryRow) (trade_params : PositionParams) : ℚ :=
  let score : ℚ := 0
  let score :=
    if row.trend = "Bullish" ∧ trade_params.expected_return > 0 then score + 30
    else if row.trend = "Bearish" ∧ trade_params.expected_return < 0 then score + 30
    else score
  let score :=
    if row.trend = "Bullish" ∧ row.rsi < rsiOversold then score + 20
    else if row.trend = "Bearish" ∧ row.rsi > rsiOverbought then score + 20
    else score
  let rr_score := min (trade_params.risk_reward * 10) 25
  let score := score + rr_score
  let vol_score := (1 - row.volatility / maxVolatility) * 15
  let score := score + max vol_score 0
  let momentum_score := |row.day_change| * 2
  let score := score + min momentum_score 10
  min score 100

/-- The fields of a record relevant to ranking: rows of `market_data` carry
`risk_reward` and `signal_strength` (forex_data_processor.py lines 61-79);
rows of `opportunity_cache` additionally carry `opportunity_score`
(dashboard.py lines 100-104). -/
structure OpportunityRow where
  pair : String
  risk_reward : ℚ
  signal_strength : ℚ
  opportunity_score : ℚ
  deriving DecidableEq, Repr

/-- Stable insertion of `a` into a list sorted non-increasing by `key`:
`a` goes before the first element whose key is strictly below `key a`,
so equal-key elements already present stay in front of later arrivals
only when they arrived earlier. -/
def insertDescBy {α : Type} (key : α → ℚ) (a : α) : List α → List α
  | [] => [a]
  | b :: bs => if key a < key b then b :: insertDescBy key a bs else a :: b :: bs

/-- Stable descending sort by `key` (insertion sort), the embedding of
`DataFrame.sort_values(key, ascending=False)`. -/
def sortDescBy {α : Type} (key : α → ℚ) : List α → List α
  | [] => []
  | a :: as => insertDescBy key a (sortDescBy key as)

/-- A list is sorted non-increasing by `key`. -/
def SortedDescBy {α : Type} (key : α → ℚ) (l : List α) : Prop :=
  l.Pairwise fun a b => key b ≤ key a

instance {α : Type} (key : α → ℚ) (l : List α) : Decidable (SortedDescBy key l) :=
  List.instDecidablePairwise l

/-- `ForexDataProcessor.get_top_opportunities(min_risk_reward)`
(forex_data_processor.py lines 376-385): filter `market_data` to rows with
`risk_reward >= min_risk_reward`, then `sort_values('signal_strength',
ascending=False)`. -/
def getTopOpportunities (rows : List OpportunityRow) (min_risk_reward : ℚ) :
    List OpportunityRow :=
  sortDescBy (fun r => r.signal_strength)
    (rows.filter fun r => min_risk_reward ≤ r.risk_reward)

/-- `MarketOpportunityDashboard.analyze_opportunities` final step
(dashboard.py lines 106-108): sort all records by `opportunity_score`
descending, with no `risk_reward` filter. -/
def analyzeOpportunitiesSort (rows : List OpportunityRow) : List OpportunityRow :=
  sortDescBy (fun r => r.opportunity_score) rows

/-! RSI computation of `YahooCurrencyWrapper.get_summary`
(yahoo_currency_wrapper.py lines 57-61):

    delta = df['Close'].diff()
    gain = (delta.where(delta > 0, 0)).rolling(window=14).mean()
    loss = (-delta.where(delta < 0, 0)).rolling(window=14).mean()
    rs = gain / loss
    rsi = 100 - (100 / (1 + rs)).fillna(50)

`diff()` puts NaN at position 0; `where(delta > 0, 0)` turns that NaN into 0
(NaN comparisons are False), so the gain and loss series are NaN-free and the
rolling mean is NaN exactly at the first 13 positions.  Pandas float division
by a zero loss gives `+inf` when the gain is positive (then `100/(1+inf) = 0`
and RSI is 100) and `NaN` when the gain is also zero (then `fillna(50)`
applies and RSI is 50). -/

/-- The gain series: position 0 is 0 (the NaN of `diff()` zeroed by `where`),
position i holds `max(close[i]-close[i-1], 0)`. -/
def gainsOf (closes : List ℚ) : List ℚ :=
  0 :: (closes.zip closes.tail).map fun p => if p.2 - p.1 > 0 then p.2 - p.1 else 0

/-- The loss series: position 0 is 0, position i holds
`max(close[i-1]-close[i], 0)`. -/
def lossesOf (closes : List ℚ) : List ℚ :=
  0 :: (closes.zip closes.tail).map fun p => if p.2 - p.1 < 0 then -(p.2 - p.1) else 0

/-- The last value of `series.rolling(window=14).mean()`: the mean of the
last 14 entries, defined (`some`) only when the series has at least 14
entries. -/
def rollingMean14Last (series : List ℚ) : Option ℚ :=
  if series.length < 14 then none
  else some ((series.drop (series.length - 14)).sum / 14)

/-- One cell of `rsi = 100 - (100 / (1 + gain/loss)).fillna(50)` under
pandas float semantics: `loss = 0, gain > 0` gives `rs = +inf` hence RSI
`100`; `loss = 0, gain = 0` gives `rs = NaN`, filled to `100 - 50 = 50`;
otherwise ordinary arithmetic.  `gain`/`loss` are nonnegative in every use. -/
def rsiCell (gain loss : ℚ) : ℚ :=
  if loss = 0 then (if gain = 0 then 50 else 100)
  else 100 - 100 / (1 + gain / loss)

/-- The `rsi` value reported for the last bar by `get_summary` (line 78
takes `rsi.iloc[-1]`, substituting 50 for NaN — the NaN case is exactly an
incomplete rolling window, since `fillna(50)` already removed the 0/0 NaNs). -/
def rsiLast (closes : List ℚ) : ℚ :=
  match rollingMean14Last (gainsOf closes), rollingMean14Last (lossesOf closes) with
  | some g, some l => rsiCell g l
  | _, _ => 50

/-- The last 14-period average loss, as a total function (50-default cases
of `rsiLast` correspond to `none`). -/
def avgLossLast (closes : List ℚ) : Option ℚ :=
  rollingMean14Last (lossesOf closes)

/-- The last 14-period average gain. -/
def avgGainLast (closes : List ℚ) : Option ℚ :=
  rollingMean14Last (gainsOf closes)

/-- `adjusted_position = base_lot * volatility_adjustment * currency_adj`
(forex_data_processor.py line 321). -/
def positionSizeOf (base_currency : String) (volatility : ℚ) : ℚ :=
  (positionConfig base_currency).base_lot * volatilityAdjustment volatility *
    currencyVolatility base_currency

/-- The regime-dependent `profit_mult` of `_calculate_dynamic_distances`
(lines 192-200). -/
def profitMultOf (base_currency : String) (volatility : ℚ) : ℚ :=
  if volatility < 0.005 then (currencyMultipliers base_currency).profit * 1.1
  else if volatility < 0.01 then (currencyMultipliers base_currency).profit
  else (currencyMultipliers base_currency).profit * 0.9

/-! ### Basic lemmas about the lookup tables and distances -/

theorem lookup_mem {β : Type} {l : List (String × β)} {c : String} {m : β}
    (h : l.lookup c = some m) : (c, m) ∈ l := by
  induction l with
  | nil => simp [List.lookup] at h
  | cons p ps ih =>
    rcases p with ⟨k, b⟩
    simp only [List.lookup] at h
    split at h
    · next heq =>
      cases h
      have hck : c = k := by simpa using heq
      subst hck
      exact List.mem_cons_self _ _
    · exact List.mem_cons_of_mem _ (ih h)

theorem currencyMultipliers_stop_pos (c : String) :
    0 < (currencyMultipliers c).stop := by
  unfold currencyMultipliers
  cases h : currencyMultipliersList.lookup c with
  | none => norm_num
  | some m =>
    have hall : ∀ p ∈ currencyMultipliersList, 0 < p.2.stop := by
      simp only [currencyMultipliersList, List.forall_mem_cons, List.not_mem_nil,
        false_implies, implies_true, and_true]
      norm_num
    simpa using hall (c, m) (lookup_mem h)

theorem currencyMultipliers_profit_pos (c : String) :
    0 < (currencyMultipliers c).profit := by
  unfold currencyMultipliers
  cases h : currencyMultipliersList.lookup c with
  | none => norm_num
  | some m =>
    have hall : ∀ p ∈ currencyMultipliersList, 0 < p.2.profit := by
      simp only [currencyMultipliersList, List.forall_mem_cons, List.not_mem_nil,
        false_implies, implies_true, and_true]
      norm_num
    simpa using hall (c, m) (lookup_mem h)

theorem positionConfig_base_lot_pos (c : String) :
    0 < (positionConfig c).base_lot := by
  unfold positionConfig; split <;> norm_num

theorem currencyVolatility_pos (c : String) : 0 < currencyVolatility c := by
  unfold currencyVolatility; split <;> norm_num

theorem volatilityAdjustment_pos (v : ℚ) : 0 < volatilityAdjustment v := by
  unfold volatilityAdjustment
  split <;> [norm_num; split <;> [norm_num; split <;> norm_num]]

theorem positionSizeOf_pos (b : String) (v : ℚ) : 0 < positionSizeOf b v :=
  mul_pos (mul_pos (positionConfig_base_lot_pos b) (volatilityAdjustment_pos v))
    (currencyVolatility_pos b)

theorem profitMultOf_pos (b : String) (v : ℚ) : 0 < profitMultOf b v := by
  unfold profitMultOf
  have h := currencyMultipliers_profit_pos b
  split
  · linarith
  · split
    · linarith
    · linarith

theorem sqrt252_pos : (0 : ℚ) < sqrt252 := by norm_num [sqrt252]

theorem calcDynamicDistances_snd (v a d : ℚ) (b : String) :
    (calcDynamicDistances v a d b).2 =
      (calcDynamicDistances v a d b).1 * profitMultOf b v := by
  unfold calcDynamicDistances profitMultOf
  by_cases h1 : v < 0.005 <;> by_cases h2 : v < 0.01 <;> simp [h1, h2]

theorem calcDynamicDistances_fst_pos (v a d : ℚ) (b : String)
    (ha : 0 < a) (hd : 0 < d) : 0 < (calcDynamicDistances v a d b).1 := by
  have hs := currencyMultipliers_stop_pos b
  unfold calcDynamicDistances
  split
  · exact lt_max_iff.mpr (Or.inl (by nlinarith))
  · split
    · exact lt_max_iff.mpr (Or.inl (by nlinarith))
    · exact lt_max_iff.mpr (Or.inl (by nlinarith))

theorem calcDynamicDistances_fst_neg (v a d : ℚ) (b : String)
    (ha : a < 0) (hd : d < 0) : (calcDynamicDistances v a d b).1 < 0 := by
  have hs := currencyMultipliers_stop_pos b
  unfold calcDynamicDistances
  split
  · exact max_lt (by nlinarith) (by nlinarith)
  · split
    · exact max_lt (by nlinarith) (by nlinarith)
    · exact max_lt (by nlinarith) (by nlinarith)

theorem profitDistanceOf_eq (b : String) (p v : ℚ) :
    profitDistanceOf b p v = stopDistanceOf b p v * profitMultOf b v :=
  calcDynamicDistances_snd v (atrOf p v) (dailyRangeOf p v) b

theorem stopDistanceOf_pos (b : String) (p v : ℚ) (hp : 0 < p) (hv : 0 < v) :
    0 < stopDistanceOf b p v := by
  have ha : 0 < atrOf p v := mul_pos hv hp
  have hd : 0 < dailyRangeOf p v := mul_pos ha sqrt252_pos
  exact calcDynamicDistances_fst_pos v _ _ b ha hd

theorem stopDistanceOf_ne_zero (b : String) (p v : ℚ) (h : v * p ≠ 0) :
    stopDistanceOf b p v ≠ 0 := by
  rcases lt_or_gt_of_ne h with hneg | hpos
  · have hd : dailyRangeOf p v < 0 :=
      mul_neg_of_neg_of_pos hneg sqrt252_pos
    exact ne_of_lt (calcDynamicDistances_fst_neg v _ _ b hneg hd)
  · have hd : 0 < dailyRangeOf p v := mul_pos hpos sqrt252_pos
    exact (calcDynamicDistances_fst_pos v _ _ b hpos hd).ne'

theorem profitDistanceOf_pos (b : String) (p v : ℚ) (hp : 0 < p) (hv : 0 < v) :
    0 < profitDistanceOf b p v := by
  rw [profitDistanceOf_eq]
  exact mul_pos (stopDistanceOf_pos b p v hp hv) (profitMultOf_pos b v)

/-- `calcPositionParameters` written with the named helper functions:
definitional unfolding of the `let` chain. -/
theorem calcPositionParameters_eq (b : String) (p v : ℚ) :
    calcPositionParameters b p v =
      if stopDistanceOf b p v = 0 ∨ v = 0 then none
      else
        some
          { position_size := positionSizeOf b v
            entry_price := p
            entry_scale_1 := p * 0.9995
            entry_scale_2 := p * 0.9990
            stop_loss := p - stopDistanceOf b p v
            take_profit := p + profitDistanceOf b p v
            risk_reward := profitDistanceOf b p v / stopDistanceOf b p v
            confidence :=
              min (profitDistanceOf b p v / stopDistanceOf b p v * 20 +
                1 / v * 30 +
                positionSizeOf b v / (positionConfig b).base_lot * 25 + 25) 100
            expected_return :=
              (profitDistanceOf b p v / stopDistanceOf b p v * 0.45 - 0.55) *
                (stopDistanceOf b p v * positionSizeOf b v)
            risk_amount := stopDistanceOf b p v * positionSizeOf b v
            volatility_class :=
              if v < 0.005 then "Low"
              else if v < 0.01 then "Medium" else "High"
            position_adjustment := volatilityAdjustment v
            currency_adjustment := currencyVolatility b } := rfl

theorem calcPositionParameters_isSome (b : String) (p v : ℚ) (h : v * p ≠ 0) :
    (calcPositionParameters b p v).isSome = true := by
  rw [calcPositionParameters_eq, if_neg]
  · rfl
  · push_neg
    exact ⟨stopDistanceOf_ne_zero b p v h, left_ne_zero_of_mul h⟩

/-! ### The stable descending sort -/

theorem insertDescBy_perm {α : Type} (key : α → ℚ) (a : α) (l : List α) :
    List.Perm (insertDescBy key a l) (a :: l) := by
  induction l with
  | nil => exact List.Perm.refl _
  | cons b bs ih =>
    unfold insertDescBy
    split
    · exact (ih.cons b).trans (List.Perm.swap a b bs)
    · exact List.Perm.refl _

theorem sortDescBy_perm {α : Type} (key : α → ℚ) (l : List α) :
    List.Perm (sortDescBy key l) l := by
  induction l with
  | nil => exact List.Perm.refl _
  | cons a as ih =>
    unfold sortDescBy
    exact (insertDescBy_perm key a _).trans (ih.cons a)

theorem insertDescBy_sorted {α : Type} (key : α → ℚ) (a : α) {l : List α}
    (h : SortedDescBy key l) : SortedDescBy key (insertDescBy key a l) := by
  induction l with
  | nil => simp [insertDescBy, SortedDescBy]
  | cons b bs ih =>
    unfold SortedDescBy at h ⊢
    rw [List.pairwise_cons] at h
    obtain ⟨hb, hbs⟩ := h
    unfold insertDescBy
    split
    · next hlt =>
      rw [List.pairwise_cons]
      refine ⟨?_, ih hbs⟩
      intro x hx
      rcases List.mem_cons.mp ((insertDescBy_perm key a bs).mem_iff.mp hx) with
        rfl | hxbs
      · exact le_of_lt hlt
      · exact hb x hxbs
    · next hge =>
      push_neg at hge
      rw [List.pairwise_cons]
      refine ⟨?_, List.pairwise_cons.mpr ⟨hb, hbs⟩⟩
      intro x hx
      rcases List.mem_cons.mp hx with rfl | hxbs
      · exact hge
      · exact le_trans (hb x hxbs) hge

theorem sortDescBy_sorted {α : Type} (key : α → ℚ) (l : List α) :
    SortedDescBy key (sortDescBy key l) := by
  induction l with
  | nil => simp [sortDescBy, SortedDescBy]
  | cons a as ih =>
    unfold sortDescBy
    exact insertDescBy_sorted key a ih

theorem insertDescBy_filter {α : Type} (key : α → ℚ) (a : α) {l : List α}
    (h : SortedDescBy key l) (k : ℚ) :
    (insertDescBy key a l).filter (fun x => decide (key x = k)) =
      if key a = k then a :: l.filter (fun x => decide (key x = k))
      else l.filter (fun x => decide (key x = k)) := by
  induction l with
  | nil =>
    by_cases hak : key a = k <;> simp [insertDescBy, List.filter, hak]
  | cons b bs ih =>
    unfold SortedDescBy at h
    rw [List.pairwise_cons] at h
    obtain ⟨hb, hbs⟩ := h
    unfold insertDescBy
    split
    · next hlt =>
      by_cases hak : key a = k <;> by_cases hbk : key b = k
      · exact absurd hlt (by rw [hak, hbk]; exact lt_irrefl k)
      · simp [List.filter_cons, hak, hbk, ih hbs]
      · simp [List.filter_cons, hak, hbk, ih hbs]
      · simp [List.filter_cons, hak, hbk, ih hbs]
    · next hge =>
      by_cases hak : key a = k <;> simp [List.filter_cons, hak]

theorem sortDescBy_filter {α : Type} (key : α → ℚ) (l : List α) (k : ℚ) :
    (sortDescBy key l).filter (fun x => decide (key x = k)) =
      l.filter (fun x => decide (key x = k)) := by
  induction l with
  | nil => rfl
  | cons a as ih =>
    unfold sortDescBy
    rw [insertDescBy_filter key a (sortDescBy_sorted key as) k]
    by_cases hak : key a = k <;> simp [List.filter_cons, hak, ih]

/-! ### Claim theorems -/

/-- C9: the regime-based stop/profit block at forex_data_processor.py lines
324-332 is dead code — its results are unconditionally overwritten by
`_calculate_dynamic_distances` at line 336 — so `_calculate_position_parameters`
with that block deleted is extensionally equal to the original. -/
theorem dead_block_no_effect (b : String) (p v : ℚ) :
    calcPositionParametersWithDeadBlock b p v = calcPositionParameters b p v :=
  rfl

/-- C2: for current_price > 0 and volatility > 0 the position sizer returns
levels with stop_loss < entry_price < take_profit, and risk_reward equals
(take_profit − entry_price)/(entry_price − stop_loss) exactly. -/
theorem position_levels_ordered_rr_exact (b : String) (p v : ℚ)
    (hp : 0 < p) (hv : 0 < v) :
    ∃ r, calcPositionParameters b p v = some r ∧
      r.stop_loss < r.entry_price ∧ r.entry_price < r.take_profit ∧
      r.risk_reward = (r.take_profit - r.entry_price) / (r.entry_price - r.stop_loss) := by
  have hs := stopDistanceOf_pos b p v hp hv
  have hpd := profitDistanceOf_pos b p v hp hv
  rw [calcPositionParameters_eq, if_neg (by push_neg; exact ⟨hs.ne', hv.ne'⟩)]
  refine ⟨_, rfl, ?_, ?_, ?_⟩
  · show p - stopDistanceOf b p v < p
    linarith
  · show p < p + profitDistanceOf b p v
    linarith
  · show profitDistanceOf b p v / stopDistanceOf b p v =
      (p + profitDistanceOf b p v - p) / (p - (p - stopDistanceOf b p v))
    rw [add_sub_cancel_left, sub_sub_cancel]

/-- C2 witness: the theorem instantiated at EUR, price 1.1, volatility 0.004. -/
theorem position_levels_ordered_rr_exact_witness :
    ∃ r, calcPositionParameters "EUR" 1.1 0.004 = some r ∧
      r.stop_loss < r.entry_price ∧ r.entry_price < r.take_profit ∧
      r.risk_reward = (r.take_profit - r.entry_price) / (r.entry_price - r.stop_loss) :=
  position_levels_ordered_rr_exact "EUR" 1.1 0.004 (by norm_num) (by norm_num)

/-- C4 counterexample: at current_price = 1 > 0 and volatility = 0 (allowed by
the claim's hypothesis volatility ≥ 0) the max(...) floor does NOT bound
stop_distance away from zero: stop_distance = 0, and the risk_reward division
at line 348 divides by zero (the call raises, embedded as `none`). -/
theorem stop_distance_zero_at_zero_volatility :
    stopDistanceOf "EUR" 1 0 = 0 ∧ calcPositionParameters "EUR" 1 0 = none := by
  constructor
  · have hm : currencyMultipliers "EUR" = CurrencyMult.mk 1.2 2.5 := rfl
    norm_num [stopDistanceOf, calcDynamicDistances, atrOf, dailyRangeOf, hm, max_def]
  · rw [calcPositionParameters_eq, if_pos (Or.inr rfl)]

/-- C4 (amended): for current_price > 0 and volatility strictly positive, the
max(...) floor does bound stop_distance away from zero, so the risk_reward
division is defined and the call returns a result. -/
theorem stop_distance_pos_division_defined (b : String) (p v : ℚ)
    (hp : 0 < p) (hv : 0 < v) :
    0 < stopDistanceOf b p v ∧ (calcPositionParameters b p v).isSome = true :=
  ⟨stopDistanceOf_pos b p v hp hv,
   calcPositionParameters_isSome b p v (mul_pos hv hp).ne'⟩

/-- C4 witness: the amended theorem instantiated at EUR, price 1.1,
volatility 0.004. -/
theorem stop_distance_pos_division_defined_witness :
    0 < stopDistanceOf "EUR" 1.1 0.004 ∧
      (calcPositionParameters "EUR" 1.1 0.004).isSome = true :=
  stop_distance_pos_division_defined "EUR" 1.1 0.004 (by norm_num) (by norm_num)

/-- C7 counterexample: `_calculate_position_parameters` contains no input
validation; at current_price = −1 ≤ 0 the call does not fail with
InvalidInputError — it silently returns a computed result. -/
theorem invalid_input_not_fatal :
    ((-1 : ℚ) ≤ 0) ∧ (calcPositionParameters "EUR" (-1) 0.01).isSome = true :=
  ⟨by norm_num, calcPositionParameters_isSome "EUR" (-1) 0.01 (by norm_num)⟩

/-- C7 (amended): the code never raises InvalidInputError: for every call with
current_price ≤ 0 or volatility < 0, as long as volatility × current_price ≠ 0
(the only genuine division-by-zero case), the call silently returns a computed
result. -/
theorem no_input_validation (b : String) (p v : ℚ)
    (hinvalid : p ≤ 0 ∨ v < 0) (hnz : v * p ≠ 0) :
    (calcPositionParameters b p v).isSome = true :=
  calcPositionParameters_isSome b p v hnz

/-- C7 witness: the amended theorem instantiated at EUR, price −1,
volatility 0.01. -/
theorem no_input_validation_witness :
    (calcPositionParameters "EUR" (-1) 0.01).isSome = true :=
  no_input_validation "EUR" (-1) 0.01 (Or.inl (by norm_num)) (by norm_num)

/-- C10: with current_price > 0 and volatility > 0 the risk_amount is strictly
positive and expected_return = (risk_reward × 0.45 − 0.55) × risk_amount is
strictly positive exactly when risk_reward > 11/9. -/
theorem expected_return_pos_iff_rr (b : String) (p v : ℚ)
    (hp : 0 < p) (hv : 0 < v) :
    ∃ r, calcPositionParameters b p v = some r ∧ 0 < r.risk_amount ∧
      (0 < r.expected_return ↔ 11 / 9 < r.risk_reward) := by
  have hs := stopDistanceOf_pos b p v hp hv
  have hpos := positionSizeOf_pos b v
  have hra : 0 < stopDistanceOf b p v * positionSizeOf b v := mul_pos hs hpos
  rw [calcPositionParameters_eq, if_neg (by push_neg; exact ⟨hs.ne', hv.ne'⟩)]
  refine ⟨_, rfl, hra, ?_⟩
  show 0 < (profitDistanceOf b p v / stopDistanceOf b p v * 0.45 - 0.55) *
      (stopDistanceOf b p v * positionSizeOf b v) ↔
    11 / 9 < profitDistanceOf b p v / stopDistanceOf b p v
  constructor
  · intro h
    by_contra hle
    push_neg at hle
    nlinarith
  · intro h
    have hfac : 0 < profitDistanceOf b p v / stopDistanceOf b p v * 0.45 - 0.55 := by
      nlinarith
    exact mul_pos hfac hra

/-- C10 witness: the theorem instantiated at EUR, price 1.1, volatility 0.004. -/
theorem expected_return_pos_iff_rr_witness :
    ∃ r, calcPositionParameters "EUR" 1.1 0.004 = some r ∧ 0 < r.risk_amount ∧
      (0 < r.expected_return ↔ 11 / 9 < r.risk_reward) :=
  expected_return_pos_iff_rr "EUR" 1.1 0.004 (by norm_num) (by norm_num)

/-- C1: for any market row with volatility ≥ 0 and RSI in [0, 100], and any
position parameters with risk_reward > 0, the composite opportunity score of
`_calculate_opportunity_score` lies in [0, 100]. -/
theorem opportunity_score_in_range (row : SummaryRow) (tp : PositionParams)
    (hvol : 0 ≤ row.volatility) (hrsi₀ : 0 ≤ row.rsi) (hrsi₁ : row.rsi ≤ 100)
    (hrr : 0 < tp.risk_reward) :
    0 ≤ calcOpportunityScore row tp ∧ calcOpportunityScore row tp ≤ 100 := by
  have h1 : 0 ≤ min (tp.risk_reward * 10) 25 := le_min (by nlinarith) (by norm_num)
  have h2 : (0 : ℚ) ≤ max ((1 - row.volatility / maxVolatility) * 15) 0 :=
    le_max_right _ _
  have h3 : 0 ≤ min (|row.day_change| * 2) 10 := le_min (by positivity) (by norm_num)
  simp only [calcOpportunityScore]
  refine ⟨?_, min_le_right _ _⟩
  split_ifs <;> (refine le_min ?_ (by norm_num)) <;> linarith

/-- C1 witness: the theorem instantiated at a concrete bullish oversold row. -/
theorem opportunity_score_in_range_witness :
    0 ≤ calcOpportunityScore (SummaryRow.mk "Bullish" 25 0.003 1)
        (PositionParams.mk 0 0 0 0 0 0 2.5 0 0 0 "Low" 0 0) ∧
      calcOpportunityScore (SummaryRow.mk "Bullish" 25 0.003 1)
        (PositionParams.mk 0 0 0 0 0 0 2.5 0 0 0 "Low" 0 0) ≤ 100 :=
  opportunity_score_in_range _ _ (by norm_num) (by norm_num) (by norm_num)
    (by norm_num)

/-- C5 counterexample: at EUR, current_price 1.1, volatility 0.004 the
position size is 100000, not the claimed 120000: the 1.2 size adjustment
requires volatility strictly below 0.004 (line 305), and 0.004 is not. -/
theorem eur_scenario_position_size_not_120000 :
    (calcPositionParameters "EUR" 1.1 0.004).map PositionParams.position_size
      = some 100000 ∧ (100000 : ℚ) ≠ 120000 := by
  constructor
  · have hm : currencyMultipliers "EUR" = CurrencyMult.mk 1.2 2.5 := rfl
    rw [calcPositionParameters_eq]
    norm_num [stopDistanceOf, calcDynamicDistances, atrOf, dailyRangeOf, sqrt252,
      hm, positionSizeOf, positionConfig, volatilityAdjustment, currencyVolatility,
      max_def]
  · norm_num

/-- C5 (amended): the EUR scenario at current_price 1.1, volatility 0.004:
atr = 0.0044, daily_range = 0.0044·√252 (≈ 0.0699), stop_distance =
daily_range × 0.10 (≈ 0.00699, the max picks the daily-range floor over
atr × 1.2 = 0.00528), profit_distance = stop_distance × 2.5 × 1.1, risk_reward
= 2.75 exactly — but position_size = 100000 (volatility adjustment 1.0, not
1.2, since 0.004 is not strictly below 0.004; currency adjustment 1.0). -/
theorem eur_scenario_exact_values :
    volatilityAdjustment 0.004 = 1
    ∧ currencyVolatility "EUR" = 1
    ∧ (calcPositionParameters "EUR" 1.1 0.004).map PositionParams.position_size
        = some 100000
    ∧ atrOf 1.1 0.004 = 0.0044
    ∧ dailyRangeOf 1.1 0.004 = 0.0044 * sqrt252
    ∧ stopDistanceOf "EUR" 1.1 0.004 = dailyRangeOf 1.1 0.004 * 0.1
    ∧ atrOf 1.1 0.004 * 1.2 < dailyRangeOf 1.1 0.004 * 0.1
    ∧ profitDistanceOf "EUR" 1.1 0.004 = stopDistanceOf "EUR" 1.1 0.004 * (2.5 * 1.1)
    ∧ (calcPositionParameters "EUR" 1.1 0.004).map PositionParams.risk_reward
        = some 2.75 := by
  have hm : currencyMultipliers "EUR" = CurrencyMult.mk 1.2 2.5 := rfl
  refine ⟨by norm_num [volatilityAdjustment], by norm_num [currencyVolatility], ?_,
    by norm_num [atrOf], by norm_num [dailyRangeOf, atrOf], ?_, ?_, ?_, ?_⟩
  · rw [calcPositionParameters_eq]
    norm_num [stopDistanceOf, calcDynamicDistances, atrOf, dailyRangeOf, sqrt252,
      hm, positionSizeOf, positionConfig, volatilityAdjustment, currencyVolatility,
      max_def]
  · norm_num [stopDistanceOf, calcDynamicDistances, atrOf, dailyRangeOf, sqrt252,
      hm, max_def]
  · norm_num [atrOf, dailyRangeOf, sqrt252]
  · norm_num [stopDistanceOf, profitDistanceOf, calcDynamicDistances, atrOf,
      dailyRangeOf, sqrt252, hm, max_def]
  · rw [calcPositionParameters_eq]
    norm_num [stopDistanceOf, profitDistanceOf, calcDynamicDistances, atrOf,
      dailyRangeOf, sqrt252, hm, max_def]

/-- C8 counterexample: the risk factors of the static table are not
pairwise distinct — EUR and USD are different currencies but share risk
factor 1.0. -/
theorem eur_usd_risk_factor_equal :
    (positionConfig "EUR").risk_factor = (positionConfig "USD").risk_factor
      ∧ "EUR" ≠ "USD" :=
  ⟨rfl, by decide⟩

/-- C8 (amended): the table covers the 8 major currencies; every code outside
the table falls back to the default {base_lot 100000, risk_factor 1.0}; the
risk factors are pairwise distinct except that EUR and USD share 1.0. -/
theorem position_config_majors_and_default :
    (positionConfig "EUR").risk_factor = (positionConfig "USD").risk_factor
    ∧ (∀ c : String,
        c ∉ (["EUR", "GBP", "USD", "JPY", "CHF", "AUD", "NZD", "CAD"] : List String) →
        positionConfig c = ⟨100000, 1.0⟩)
    ∧ ([(positionConfig "EUR").risk_factor, (positionConfig "GBP").risk_factor,
        (positionConfig "JPY").risk_factor, (positionConfig "CHF").risk_factor,
        (positionConfig "AUD").risk_factor, (positionConfig "NZD").risk_factor,
        (positionConfig "CAD").risk_factor] : List ℚ).Nodup := by
  refine ⟨rfl, ?_, ?_⟩
  · intro c hc
    unfold positionConfig
    split <;> simp_all
  · norm_num [positionConfig, List.nodup_cons]

/-- C8 witness: the amended theorem applied to the unknown code XXX. -/
theorem position_config_majors_and_default_witness :
    positionConfig "XXX" = ⟨100000, 1.0⟩ :=
  position_config_majors_and_default.2.1 "XXX" (by decide)

/-- C3 counterexample: `get_top_opportunities` sorts by `signal_strength`
(forex_data_processor.py line 383), not by `opportunity_score`: with two
records passing the risk_reward filter whose signal_strength order opposes
their opportunity_score order, the output is not sorted non-increasing by
opportunity_score. -/
theorem get_top_not_sorted_by_opportunity_score :
    ¬ SortedDescBy (fun r => r.opportunity_score)
        (getTopOpportunities
          [OpportunityRow.mk "EUR/USD" 2 10 0, OpportunityRow.mk "GBP/USD" 2 0 50]
          1.5) := by
  intro h
  have hev : getTopOpportunities
      [OpportunityRow.mk "EUR/USD" 2 10 0, OpportunityRow.mk "GBP/USD" 2 0 50] 1.5
      = [OpportunityRow.mk "EUR/USD" 2 10 0, OpportunityRow.mk "GBP/USD" 2 0 50] := by
    norm_num [getTopOpportunities, sortDescBy, insertDescBy, List.filter]
  rw [hev] at h
  unfold SortedDescBy at h
  rw [List.pairwise_cons] at h
  have h1 := h.1 _ (List.mem_cons_self _ _)
  norm_num at h1

/-- C3 (amended): `get_top_opportunities` returns exactly the records with
risk_reward ≥ min_risk_reward — as a permutation of the filtered input with
every signal-strength level kept in original pair-iteration order (pandas
`sort_values` embedded as a stable sort) — sorted non-increasing by
signal_strength (not by opportunity_score; the opportunity_score sort is
performed, unfiltered, by `analyze_opportunities`). -/
theorem get_top_opportunities_spec (rows : List OpportunityRow) (minRR : ℚ) :
    SortedDescBy (fun r => r.signal_strength) (getTopOpportunities rows minRR)
    ∧ List.Perm (getTopOpportunities rows minRR)
        (rows.filter fun r => minRR ≤ r.risk_reward)
    ∧ ∀ k : ℚ,
        (getTopOpportunities rows minRR).filter
            (fun r => decide (r.signal_strength = k)) =
          (rows.filter fun r => minRR ≤ r.risk_reward).filter
            (fun r => decide (r.signal_strength = k)) :=
  ⟨sortDescBy_sorted _ _, sortDescBy_perm _ _, fun k => sortDescBy_filter _ _ k⟩

/-- C6 counterexample: on a strictly increasing 15-close series the 14-period
average loss is zero but the reported RSI is 100, not 50: `gain/loss` is
`+inf` in pandas (not NaN), so `100 - (100/(1+rs)).fillna(50)` yields 100. -/
theorem rsi_100_on_pure_gains :
    avgLossLast [1, 2, 3, 4, 5, 6, 7, 8, 9, 10, 11, 12, 13, 14, 15] = some 0
    ∧ rsiLast [1, 2, 3, 4, 5, 6, 7, 8, 9, 10, 11, 12, 13, 14, 15] ≠ 50
    ∧ rsiLast [1, 2, 3, 4, 5, 6, 7, 8, 9, 10, 11, 12, 13, 14, 15] = 100 := by
  have hl : avgLossLast [1, 2, 3, 4, 5, 6, 7, 8, 9, 10, 11, 12, 13, 14, 15]
      = some 0 := by
    norm_num [avgLossLast, lossesOf, rollingMean14Last, List.zip, List.zipWith]
  have hg : avgGainLast [1, 2, 3, 4, 5, 6, 7, 8, 9, 10, 11, 12, 13, 14, 15]
      = some 1 := by
    norm_num [avgGainLast, gainsOf, rollingMean14Last, List.zip, List.zipWith]
  have hr : rsiLast [1, 2, 3, 4, 5, 6, 7, 8, 9, 10, 11, 12, 13, 14, 15] = 100 := by
    unfold rsiLast
    unfold avgGainLast at hg
    unfold avgLossLast at hl
    rw [hg, hl]
    norm_num [rsiCell]
  exact ⟨hl, by rw [hr]; norm_num, hr⟩

/-- C6 (amended): when the 14-period average loss is zero the reported RSI is
50 only if the average gain is also zero; with a positive average gain it is
100.  When the rolling window is undefined (fewer than 14 entries) the RSI
defaults to 50. -/
theorem rsi_loss_zero_cases (closes : List ℚ) (g : ℚ) :
    (avgGainLast closes = some g → avgLossLast closes = some 0 →
        rsiLast closes = if g = 0 then 50 else 100)
    ∧ (avgLossLast closes = none → rsiLast closes = 50) := by
  constructor
  · intro hg hl
    unfold avgGainLast at hg
    unfold avgLossLast at hl
    unfold rsiLast
    rw [hg, hl]
    by_cases hgz : g = 0 <;> simp [rsiCell, hgz]
  · intro hl
    unfold avgLossLast at hl
    unfold rsiLast
    rw [hl]
    cases rollingMean14Last (gainsOf closes) <;> rfl

/-- C6 witness: the amended theorem applied to a flat 15-close series (average
gain and loss both zero), yielding RSI 50. -/
theorem rsi_loss_zero_cases_witness :
    rsiLast [1, 1, 1, 1, 1, 1, 1, 1, 1, 1, 1, 1, 1, 1, 1] = 50 := by
  have h := (rsi_loss_zero_cases [1, 1, 1, 1, 1, 1, 1, 1, 1, 1, 1, 1, 1, 1, 1] 0).1
    (by norm_num [avgGainLast, gainsOf, rollingMean14Last, List.zip, List.zipWith])
    (by norm_num [avgLossLast, lossesOf, rollingMean14Last, List.zip, List.zipWith])
  simpa using h

end MarketDashboard
